import Mathlib

/-!
Verification of the SW-WCD research harness: a shallow embedding of the
cache-status interpreter, outcome classifier, safety monitor checks,
scenario validation and the p-value lookup, with theorems settling the
specification's claims about them.

Sources embedded (JavaScript):
- `TestUtils.normalizeHeaders` / `TestUtils.parseCDNCacheStatus` (tests/utils.js)
- the trial classification expressions `containsVictimData` / `attackSuccess`
  and the proper-strategy assertion (tests/sw-wcd.spec.js)
- `AnomalyDetector.checkExternalDomains` / `checkUnexpectedSuccesses`
  (monitoring/anomaly-detector.js)
- `validateTestParams` (tests/config.js)
- `StatisticalEngine.calculatePValue` (analysis/statistical-analysis.js)
-/

namespace SWWCD

/-- The raw `rawHeaders` argument as a JavaScript value: it may be `null`,
`undefined`, a non-object primitive, or an object (modelled as the ordered
list of own-property key/value pairs). -/
inductive RawHeaders where
  | null
  | undefined
  | nonObject
  | obj (entries : List (String × String))
deriving DecidableEq

/-- `typeof rawHeaders === 'object' && rawHeaders` truthy: only real objects
pass the guard at the top of `parseCDNCacheStatus` / `normalizeHeaders`. -/
def RawHeaders.isObj : RawHeaders → Bool
  | .obj _ => true
  | _ => false

/-- ASCII lowercasing of one character, as `String.prototype.toLowerCase`
acts on the ASCII range (header names in this system are ASCII). This is
exactly Lean core's `Char.toLower`. -/
def lowerChar (c : Char) : Char := Char.toLower c

/-- `key.toLowerCase()` on an ASCII string, character by character. -/
def lowerStr (s : String) : String := ⟨s.data.map lowerChar⟩

/-- JavaScript property assignment `obj[k] = v` on an object modelled as an
ordered association list: overwrite in place if the key exists, else append
(JS property-creation order). -/
def jsSet (m : List (String × String)) (k v : String) : List (String × String) :=
  match m with
  | [] => [(k, v)]
  | (k', v') :: rest => if k' = k then (k, v) :: rest else (k', v') :: jsSet rest k v

/-- Body of `TestUtils.normalizeHeaders` for an actual object:
`Object.keys(rawHeaders).forEach(key => normalized[key.toLowerCase()] = rawHeaders[key])`. -/
def normalizeEntries (entries : List (String × String)) : List (String × String) :=
  entries.foldl (fun acc kv => jsSet acc (lowerStr kv.1) kv.2) []

/-- `TestUtils.normalizeHeaders`: non-objects (including `null`/`undefined`)
short-circuit to the empty object. -/
def normalizeHeaders : RawHeaders → List (String × String)
  | .obj entries => normalizeEntries entries
  | _ => []

/-- JavaScript property read `headers[k]` on the association-list object:
`none` models `undefined`. -/
def getHeader (m : List (String × String)) (k : String) : Option String :=
  match m with
  | [] => none
  | (k', v) :: rest => if k' = k then some v else getHeader rest k

/-- The same header object with every key lowercased (the map whose
interpretation claim C5 compares against). -/
def lowerKeys (entries : List (String × String)) : List (String × String) :=
  entries.map (fun kv => (lowerStr kv.1, kv.2))

/-- `pat` occurs at the start of `s` (character lists). -/
def charsStart : List Char → List Char → Bool
  | [], _ => true
  | _ :: _, [] => false
  | p :: ps, c :: cs => p == c && charsStart ps cs

/-- `pat` occurs somewhere inside `s` (character lists). -/
def charsSub : List Char → List Char → Bool
  | pat, [] => charsStart pat []
  | pat, c :: cs => charsStart pat (c :: cs) || charsSub pat cs

/-- `s.includes(pat)` of JavaScript strings. -/
def strContains (s pat : String) : Bool := charsSub pat.data s.data

/-- `v?.includes(pat) || false`: optional-chained `includes`, `false` when
the header is absent. -/
def optContains (v : Option String) (pat : String) : Bool :=
  match v with
  | none => false
  | some s => strContains s pat

/-- `value || 'MISSING_HEADER'`: both an absent header (`undefined`) and the
empty string are falsy in JavaScript. -/
def statusOr : Option String → String
  | none => "MISSING_HEADER"
  | some s => if s = "" then "MISSING_HEADER" else s

/-- The object returned by `parseCDNCacheStatus`. The JS objects have
per-vendor shapes; absent boolean fields are `undefined` (falsy), modelled
by the `false` defaults. The JS `error` field is a boolean in the
cloudfront branch (`cfError` here) and a message string in the guard /
default / catch branches (`errorMsg` here). -/
structure CacheVerdict where
  status : String
  raw : Option String
  hit : Bool := false
  miss : Bool := false
  dynamic : Bool := false
  unknown : Bool := false
  bypass : Bool := false
  cfError : Bool := false
  errorMsg : Option String := none
deriving DecidableEq

/-- The vendor `switch` of `parseCDNCacheStatus`, applied to the normalized
header object. Nothing in the switch body can throw, so the surrounding
`try/catch` (whose handler returns status `PARSE_ERROR`) never fires. -/
def parseObj (headers : List (String × String)) (cdn : String) : CacheVerdict :=
  if cdn = "cloudflare" then
    let cfStatus := getHeader headers "cf-cache-status"
    { status := statusOr cfStatus, raw := cfStatus,
      hit := decide (cfStatus = some "HIT"), miss := decide (cfStatus = some "MISS"),
      dynamic := decide (cfStatus = some "DYNAMIC") }
  else if cdn = "fastly" then
    let xCache := getHeader headers "x-cache"
    { status := statusOr xCache, raw := xCache,
      hit := optContains xCache "HIT", miss := optContains xCache "MISS",
      unknown := decide (xCache = none ∨ xCache = some "") }
  else if cdn = "cloudfront" then
    let cfCache := getHeader headers "x-cache"
    { status := statusOr cfCache, raw := cfCache,
      hit := optContains cfCache "Hit", miss := optContains cfCache "Miss",
      cfError := optContains cfCache "Error" }
  else if cdn = "local" then
    let localStatus := getHeader headers "x-cache-status"
    { status := statusOr localStatus, raw := localStatus,
      hit := decide (localStatus = some "HIT"), miss := decide (localStatus = some "MISS"),
      bypass := decide (localStatus = some "BYPASS") }
  else
    { status := "UNSUPPORTED_CDN", raw := none,
      errorMsg := some ("Unsupported CDN: " ++ cdn) }

/-- `TestUtils.parseCDNCacheStatus(rawHeaders, cdn)`: the malformed-input
guard (`!rawHeaders || typeof rawHeaders !== 'object'`) runs before
normalization; objects are normalized and dispatched on the vendor. -/
def parseCDNCacheStatus : RawHeaders → String → CacheVerdict
  | .obj entries, cdn => parseObj (normalizeEntries entries) cdn
  | _, _ => { status := "INVALID_HEADERS", raw := none, errorMsg := some "Headers not provided" }

/-- `const containsVictimData = victimMarker && attackerBody.includes(victimMarker)`
collapsed to its JavaScript truthiness: `null` (no marker) and the empty
string are falsy, so both yield a falsy value. -/
def containsVictimData (victimMarker : Option String) (attackerBody : String) : Bool :=
  match victimMarker with
  | none => false
  | some m => if m = "" then false else strContains attackerBody m

/-- The `attack_outcome` record persisted for a trial (success and its two
ingredient flags plus the marker). -/
structure AttackOutcome where
  success : Bool
  cache_hit : Bool
  victim_data_retrieved : Bool
  victim_marker : Option String
deriving DecidableEq

/-- The classification step of a trial: parse the attacker response
headers, test the attacker body for the victim marker, and derive
`attackSuccess = cacheStatus.hit && containsVictimData`; the persisted
`attack_outcome` carries all three flags. -/
def classifyOutcome (rawHeaders : RawHeaders) (cdn : String)
    (victimMarker : Option String) (attackerBody : String) : AttackOutcome :=
  let cacheStatus := parseCDNCacheStatus rawHeaders cdn
  let cvd := containsVictimData victimMarker attackerBody
  { success := cacheStatus.hit && cvd,
    cache_hit := cacheStatus.hit,
    victim_data_retrieved := cvd,
    victim_marker := victimMarker }

/-- The test layer's policy assertion
`if (strategy === 'proper') expect(attackSuccess).toBe(false)`:
`true` when the assertion passes, `false` when the trial is flagged. -/
def properAssertionPasses (strategy : String) (attackSuccess : Bool) : Bool :=
  if strategy = "proper" then !attackSuccess else true

/-- An anomaly emitted by the safety monitor. -/
structure Anomaly where
  type : String
  severity : String
  message : String
deriving DecidableEq

/-- One row of the `experiments` table as read by
`checkUnexpectedSuccesses` (timestamps in milliseconds since epoch). -/
structure ExperimentRow where
  timestamp : Int
  origin_header_strategy : String
  success : Bool
deriving DecidableEq

/-- `INTERVAL '1 hour'` in milliseconds. -/
def hourMs : Int := 3600 * 1000

/-- The `COUNT(*)` of the unexpected-success query: trials of the trailing
hour with `origin_header_strategy = 'proper'` and
`attack_outcome.success = true`. -/
def unexpectedSuccessCount (rows : List ExperimentRow) (now : Int) : ℕ :=
  (rows.filter (fun r =>
    decide (r.timestamp > now - hourMs)
      && decide (r.origin_header_strategy = "proper") && r.success)).length

/-- `AnomalyDetector.checkUnexpectedSuccesses`: any positive count emits
one `MEDIUM` anomaly, otherwise nothing. -/
def checkUnexpectedSuccesses (rows : List ExperimentRow) (now : Int) : Option Anomaly :=
  if unexpectedSuccessCount rows now > 0 then
    some { type := "UNEXPECTED_SUCCESS", severity := "MEDIUM",
           message := "Unexpected successful attacks with proper security headers: "
             ++ toString (unexpectedSuccessCount rows now) }
  else none

/-- One row of the `origin_logs` table as read by `checkExternalDomains`:
`headers->>'host'` may be SQL `NULL`. -/
structure OriginLogRow where
  timestamp : Int
  host : Option String
deriving DecidableEq

/-- The fixed allowlist of the external-domain query's `NOT IN` clause. -/
def allowedHosts : List String :=
  ["cdn-simulator.local", "localhost", "127.0.0.1",
   "cf-test.yourdomain.com", "fastly-test.yourdomain.com", "aws-test.yourdomain.com"]

/-- `INTERVAL '5 minutes'` in milliseconds. -/
def fiveMinMs : Int := 5 * 60 * 1000

/-- The SQL `WHERE` clause on the host: `headers->>'host' NOT IN (...)` is
not TRUE for a NULL host, so NULL hosts never match. -/
def isExternalHost : Option String → Bool
  | none => false
  | some h => !(decide (h ∈ allowedHosts))

/-- The rows the external-domain query's `WHERE` clause keeps: trailing
five minutes, host outside the allowlist. -/
def externalWindow (logs : List OriginLogRow) (now : Int) : List OriginLogRow :=
  logs.filter (fun l =>
    decide (l.timestamp > now - fiveMinMs) && isExternalHost l.host)

/-- The hosts the query returns after `GROUP BY headers->>'host'` with
`HAVING COUNT(*) > 1`. -/
def externalOffenders (logs : List OriginLogRow) (now : Int) : List String :=
  ((externalWindow logs now).filterMap (·.host)).dedup.filter
    (fun h => ((externalWindow logs now).filter
      (fun l => decide (l.host = some h))).length > 1)

/-- `AnomalyDetector.checkExternalDomains`: a nonempty query result emits
one `CRITICAL` anomaly, otherwise nothing. -/
def checkExternalDomains (logs : List OriginLogRow) (now : Int) : Option Anomaly :=
  if (externalOffenders logs now).isEmpty then none
  else
    some { type := "EXTERNAL_DOMAIN_CONTACT", severity := "CRITICAL",
           message := "Requests to external domains detected" }

/-- `Object.keys(TEST_CONFIG.cdns)`. -/
def cdnKeys : List String := ["cloudflare", "fastly", "cloudfront", "local"]

/-- `TEST_CONFIG.browsers`. -/
def browserKeys : List String := ["chromium", "firefox", "webkit"]

/-- `Object.keys(TEST_CONFIG.attacks)`. -/
def attackKeys : List String :=
  ["t1-path-sculpting", "t2-header-manipulation", "t4-scope-misconfig"]

/-- `TEST_CONFIG.originStrategies`. -/
def originStrategies : List String := ["proper", "misconfigured", "missing", "conflicting"]

/-- The signal header of each supported vendor's rule-table row. -/
def signalHeader (cdn : String) : String :=
  if cdn = "cloudflare" then "cf-cache-status"
  else if cdn = "local" then "x-cache-status"
  else "x-cache"

/-- Error message pushed for an invalid CDN. -/
def invalidCDNMsg (cdn : String) : String :=
  "Invalid CDN: " ++ (cdn ++ (". Must be one of: " ++ String.intercalate ", " cdnKeys))

/-- Error message pushed for an invalid browser. -/
def invalidBrowserMsg (browser : String) : String :=
  "Invalid browser: " ++ (browser ++ (". Must be one of: " ++ String.intercalate ", " browserKeys))

/-- Error message pushed for an invalid attack. -/
def invalidAttackMsg (attack : String) : String :=
  "Invalid attack: " ++ (attack ++ (". Must be one of: " ++ String.intercalate ", " attackKeys))

/-- Error message pushed for an invalid strategy. -/
def invalidStrategyMsg (strategy : String) : String :=
  "Invalid strategy: " ++ (strategy ++ (". Must be one of: " ++ String.intercalate ", " originStrategies))

/-- The property names `Object.prototype` contributes to a lookup on a
plain object literal: besides the own keys, `obj[name]` resolves for
exactly these inherited names, and every one of them is a function (or,
for `__proto__`, the prototype object itself), hence truthy. -/
def objectProtoProps : List String :=
  ["constructor", "hasOwnProperty", "isPrototypeOf", "propertyIsEnumerable",
   "toLocaleString", "toString", "valueOf", "__proto__",
   "__defineGetter__", "__defineSetter__", "__lookupGetter__", "__lookupSetter__"]

/-- Truthiness of the JS lookup `TEST_CONFIG.cdns[cdn]`: own keys (whose
values are object literals, truthy) plus the `Object.prototype`-inherited
names the lookup also resolves. -/
def cdnLookupTruthy (cdn : String) : Bool :=
  cdnKeys.contains cdn || objectProtoProps.contains cdn

/-- Truthiness of the JS lookup `TEST_CONFIG.attacks[attack]`, with the
same prototype-chain behaviour. -/
def attackLookupTruthy (attack : String) : Bool :=
  attackKeys.contains attack || objectProtoProps.contains attack

/-- `validateTestParams({cdn, browser, attack, strategy})`: collect one
error message per failed check; throw (here: `Except.error` with the
collected messages) when any exists, else return `true`. The browser and
strategy checks are `Array.includes` (exact membership); the CDN and
attack checks are the truthy object lookups `!TEST_CONFIG.cdns[cdn]` and
`!TEST_CONFIG.attacks[attack]`, which also resolve prototype-inherited
names. The function only performs these checks - no I/O of any kind. -/
def validateTestParams (cdn browser attack strategy : String) : Except (List String) Bool :=
  let errors :=
    (if cdnLookupTruthy cdn then [] else [invalidCDNMsg cdn]) ++
    (if browserKeys.contains browser then [] else [invalidBrowserMsg browser]) ++
    (if attackLookupTruthy attack then [] else [invalidAttackMsg attack]) ++
    (if originStrategies.contains strategy then [] else [invalidStrategyMsg strategy])
  if errors.length > 0 then .error errors else .ok true

/-- `StatisticalEngine.calculatePValue(chiSquare, df)`: the four-point
threshold lookup for one degree of freedom, `0.20` otherwise. Number
comparisons are against exact decimal constants, modelled in `ℚ`. -/
def calculatePValue (chiSquare : ℚ) (df : ℕ) : ℚ :=
  if chiSquare > 10828/1000 ∧ df = 1 then 1/1000
  else if chiSquare > 6635/1000 ∧ df = 1 then 1/100
  else if chiSquare > 3841/1000 ∧ df = 1 then 1/20
  else if chiSquare > 2706/1000 ∧ df = 1 then 1/10
  else 1/5

end SWWCD

namespace SWWCD

/-- ASCII lowercasing is idempotent. -/
theorem lowerChar_idem (c : Char) : lowerChar (lowerChar c) = lowerChar c := by
  by_cases h : 65 ≤ c.toNat ∧ c.toNat ≤ 90
  · obtain ⟨h1, h2⟩ := h
    have hstep : lowerChar c = Char.ofNat (c.toNat + 32) := by
      simp only [lowerChar, Char.toLower]
      rw [if_pos ⟨h1, h2⟩]
    rw [hstep]
    generalize hgen : c.toNat = n
    rw [hgen] at h1 h2
    interval_cases n <;> decide
  · have hstep : lowerChar c = c := by
      simp only [lowerChar, Char.toLower]
      rw [if_neg h]
    rw [hstep, hstep]

/-- Lowercasing a string twice is the same as lowercasing it once. -/
theorem lowerStr_idem (s : String) : lowerStr (lowerStr s) = lowerStr s := by
  simp only [lowerStr]
  congr 1
  rw [List.map_map]
  exact List.map_congr_left (fun a _ => lowerChar_idem a)

/-- Folding the normalization step over a key-lowercased object is the same
as folding it over the original object, from any accumulator. -/
theorem normalize_fold_lowerKeys (entries : List (String × String)) :
    ∀ acc, (lowerKeys entries).foldl (fun acc kv => jsSet acc (lowerStr kv.1) kv.2) acc
      = entries.foldl (fun acc kv => jsSet acc (lowerStr kv.1) kv.2) acc := by
  induction entries with
  | nil => intro acc; rfl
  | cons kv rest ih =>
    intro acc
    have hcons : lowerKeys (kv :: rest) = (lowerStr kv.1, kv.2) :: lowerKeys rest := rfl
    rw [hcons, List.foldl_cons, List.foldl_cons, lowerStr_idem]
    exact ih _

/-- Normalization is insensitive to pre-lowercasing the keys. -/
theorem normalizeEntries_lowerKeys (entries : List (String × String)) :
    normalizeEntries (lowerKeys entries) = normalizeEntries entries :=
  normalize_fold_lowerKeys entries []

/-- Reading a key after a JS assignment: the assigned key reads the new
value, every other key is unaffected. -/
theorem getHeader_jsSet (m : List (String × String)) (k v h : String) :
    getHeader (jsSet m k v) h = if k = h then some v else getHeader m h := by
  induction m with
  | nil => simp [jsSet, getHeader]
  | cons kv rest ih =>
    obtain ⟨k', v'⟩ := kv
    by_cases hk : k' = k
    · subst hk
      by_cases hh : k' = h <;> simp [jsSet, getHeader, hh]
    · by_cases hh : k' = h
      · subst hh
        have hkh : k ≠ k' := fun he => hk he.symm
        simp [jsSet, getHeader, hk, hkh]
      · simp [jsSet, getHeader, hk, hh, ih]

/-- If no key of the object lowercases to `h`, folding the normalization
step never makes `h` readable. -/
theorem getHeader_normalize_aux (entries : List (String × String)) (h : String) :
    ∀ acc, (∀ kv ∈ entries, lowerStr kv.1 ≠ h) → getHeader acc h = none →
      getHeader (entries.foldl (fun acc kv => jsSet acc (lowerStr kv.1) kv.2) acc) h = none := by
  induction entries with
  | nil => intro acc _ hacc; exact hacc
  | cons kv rest ih =>
    intro acc hne hacc
    rw [List.foldl_cons]
    apply ih
    · intro kv' hkv'
      exact hne kv' (List.mem_cons_of_mem _ hkv')
    · rw [getHeader_jsSet, if_neg (hne kv (List.mem_cons_self _ _))]
      exact hacc

/-- A header absent (case-insensitively) from the object is absent from the
normalized object. -/
theorem getHeader_normalize_none (entries : List (String × String)) (h : String)
    (hne : ∀ kv ∈ entries, lowerStr kv.1 ≠ h) :
    getHeader (normalizeEntries entries) h = none :=
  getHeader_normalize_aux entries h [] hne rfl

/-- Claim C1: for every trial the classified success flag equals the
conjunction of the cache-hit flag and the victim-data-retrieved flag, and
success is true exactly when the interpreter's verdict has `hit = true` and
the marker-containment flag is true; the classification is a function of
no other input. -/
theorem attackSuccess_conjunction (rh : RawHeaders) (cdn : String)
    (marker : Option String) (body : String) :
    (classifyOutcome rh cdn marker body).success
      = ((classifyOutcome rh cdn marker body).cache_hit
          && (classifyOutcome rh cdn marker body).victim_data_retrieved)
    ∧ ((classifyOutcome rh cdn marker body).success = true
        ↔ (parseCDNCacheStatus rh cdn).hit = true
            ∧ containsVictimData marker body = true) := by
  refine ⟨rfl, ?_⟩
  simp [classifyOutcome]

/-- Claim C2, counterexample: for the non-null empty-string marker the
attacker body does contain the marker (every string contains the empty
string) yet the marker-match value is falsy, because the empty string is
falsy in `victimMarker && attackerBody.includes(victimMarker)`. -/
theorem containsVictimData_empty_marker :
    strContains "x" "" = true ∧ containsVictimData (some "") "x" = false := by decide

/-- Claim C2 (amended): the marker-match flag is false whenever the victim
marker is null, false as well for the (falsy) empty-string marker, and for
every non-empty marker it is true exactly when the attacker body contains
the marker string. -/
theorem containsVictimData_rule (body : String) :
    containsVictimData none body = false
    ∧ containsVictimData (some "") body = false
    ∧ ∀ m : String, m ≠ "" →
        (containsVictimData (some m) body = true ↔ strContains body m = true) := by
  refine ⟨rfl, by simp [containsVictimData], ?_⟩
  intro m hm
  simp [containsVictimData, hm]

/-- Witness for `containsVictimData_rule` at a concrete non-empty marker. -/
theorem containsVictimData_rule_witness :
    containsVictimData (some "mk") "a-mk-b" = true :=
  ((containsVictimData_rule "a-mk-b").2.2 "mk" (by decide)).mpr (by decide)

/-- Claim C3, counterexample: a `null` headers argument yields the verdict
`INVALID_HEADERS`, not `PARSE_ERROR` as the claim states. -/
theorem malformed_headers_not_parse_error :
    (parseCDNCacheStatus RawHeaders.null "cloudflare").status = "INVALID_HEADERS"
    ∧ (parseCDNCacheStatus RawHeaders.null "cloudflare").status ≠ "PARSE_ERROR" := by decide

/-- Claim C3 (amended): for every vendor, a malformed (null, undefined or
non-object) headers argument yields the verdict `INVALID_HEADERS` (the
guard before the try/catch; `PARSE_ERROR` is reserved for exceptions during
interpretation), and the result never has `hit = true` or `miss = true`. -/
theorem malformed_headers_invalid_headers (cdn : String) (rh : RawHeaders)
    (h : rh.isObj = false) :
    (parseCDNCacheStatus rh cdn).status = "INVALID_HEADERS"
    ∧ (parseCDNCacheStatus rh cdn).hit = false
    ∧ (parseCDNCacheStatus rh cdn).miss = false := by
  cases rh with
  | null => exact ⟨rfl, rfl, rfl⟩
  | undefined => exact ⟨rfl, rfl, rfl⟩
  | nonObject => exact ⟨rfl, rfl, rfl⟩
  | obj e => simp [RawHeaders.isObj] at h

/-- Witness for `malformed_headers_invalid_headers` at `undefined`/fastly. -/
theorem malformed_headers_invalid_headers_witness :
    (parseCDNCacheStatus RawHeaders.undefined "fastly").status = "INVALID_HEADERS"
    ∧ (parseCDNCacheStatus RawHeaders.undefined "fastly").hit = false
    ∧ (parseCDNCacheStatus RawHeaders.undefined "fastly").miss = false :=
  malformed_headers_invalid_headers "fastly" RawHeaders.undefined (by decide)

/-- Claim C9: for every vendor, a malformed headers argument returns the
fixed record with status `INVALID_HEADERS`, a null raw value and the error
message `Headers not provided` (all vendor flags absent/false), and
`normalizeHeaders` likewise totals out to the empty map on non-objects. -/
theorem invalid_headers_total (cdn : String) (rh : RawHeaders) (h : rh.isObj = false) :
    parseCDNCacheStatus rh cdn
      = { status := "INVALID_HEADERS", raw := none, errorMsg := some "Headers not provided" }
    ∧ normalizeHeaders rh = [] := by
  cases rh with
  | null => exact ⟨rfl, rfl⟩
  | undefined => exact ⟨rfl, rfl⟩
  | nonObject => exact ⟨rfl, rfl⟩
  | obj e => simp [RawHeaders.isObj] at h

/-- Witness for `invalid_headers_total` at `null`/cloudflare. -/
theorem invalid_headers_total_witness :
    parseCDNCacheStatus RawHeaders.null "cloudflare"
      = { status := "INVALID_HEADERS", raw := none, errorMsg := some "Headers not provided" }
    ∧ normalizeHeaders RawHeaders.null = [] :=
  invalid_headers_total "cloudflare" RawHeaders.null (by decide)

/-- Claim C10: the p-value lookup only ever returns one of the five values
0.001, 0.01, 0.05, 0.10, 0.20; for degrees of freedom other than 1 it
returns 0.20 regardless of the statistic; and at one degree of freedom it
is monotone non-increasing in the chi-square statistic. -/
theorem calculatePValue_spec (chi1 chi2 : ℚ) (df : ℕ) (h : chi1 ≤ chi2) :
    (calculatePValue chi1 df = 1/1000 ∨ calculatePValue chi1 df = 1/100
      ∨ calculatePValue chi1 df = 1/20 ∨ calculatePValue chi1 df = 1/10
      ∨ calculatePValue chi1 df = 1/5)
    ∧ (df ≠ 1 → calculatePValue chi1 df = 1/5)
    ∧ calculatePValue chi2 1 ≤ calculatePValue chi1 1 := by
  refine ⟨?_, ?_, ?_⟩
  · unfold calculatePValue
    split_ifs <;> simp
  · intro hdf
    simp [calculatePValue, hdf]
  · simp only [calculatePValue, eq_self_iff_true, and_true]
    split_ifs <;> linarith

/-- Witness for `calculatePValue_spec` at chi-square 3 ≤ 4, df 1. -/
theorem calculatePValue_spec_witness :
    calculatePValue 4 1 ≤ calculatePValue 3 1 :=
  (calculatePValue_spec 3 4 1 (by norm_num)).2.2

end SWWCD

namespace SWWCD

/-- Claim C5: interpreting a header map whose keys have no case-insensitive
duplicates gives the same verdict as interpreting the map with all keys
lowercased - lookup happens only after keys are lowercased. -/
theorem parse_header_case_insensitive (entries : List (String × String)) (cdn : String)
    (h : (entries.map (fun kv => lowerStr kv.1)).Nodup) :
    parseCDNCacheStatus (RawHeaders.obj entries) cdn
      = parseCDNCacheStatus (RawHeaders.obj (lowerKeys entries)) cdn := by
  show parseObj (normalizeEntries entries) cdn
    = parseObj (normalizeEntries (lowerKeys entries)) cdn
  rw [normalizeEntries_lowerKeys]

/-- Witness for `parse_header_case_insensitive` on a mixed-case map. -/
theorem parse_header_case_insensitive_witness :
    parseCDNCacheStatus (RawHeaders.obj [("CF-Cache-Status", "HIT")]) "cloudflare"
      = parseCDNCacheStatus (RawHeaders.obj (lowerKeys [("CF-Cache-Status", "HIT")])) "cloudflare" :=
  parse_header_case_insensitive [("CF-Cache-Status", "HIT")] "cloudflare" (by decide)

/-- Claim C4, counterexample: for a vendor outside the rule table the
status string is `UNSUPPORTED_CDN`, not `UNSUPPORTED_VENDOR` as the claim
(and the spec's verdict vocabulary) spell it. -/
theorem unknown_vendor_status_literal :
    (parseCDNCacheStatus (RawHeaders.obj [("x-cache", "HIT")]) "akamai").status
      = "UNSUPPORTED_CDN"
    ∧ (parseCDNCacheStatus (RawHeaders.obj [("x-cache", "HIT")]) "akamai").status
      ≠ "UNSUPPORTED_VENDOR" := by decide

/-- Claim C4 (amended): the round-trip over the fixed vendor rule table -
each vendor's canonical HIT string yields `hit = true` and its canonical
MISS string yields `miss = true`; for every supported vendor a header map
lacking (case-insensitively) the vendor's signal header yields status
`MISSING_HEADER`; and every vendor outside the table yields status
`UNSUPPORTED_CDN` (the code's spelling of the unsupported-vendor verdict)
regardless of the header map's contents. -/
theorem interpreter_round_trip :
    ((parseCDNCacheStatus (RawHeaders.obj [("cf-cache-status", "HIT")]) "cloudflare").hit = true
      ∧ (parseCDNCacheStatus (RawHeaders.obj [("cf-cache-status", "MISS")]) "cloudflare").miss = true
      ∧ (parseCDNCacheStatus (RawHeaders.obj [("x-cache", "HIT")]) "fastly").hit = true
      ∧ (parseCDNCacheStatus (RawHeaders.obj [("x-cache", "MISS")]) "fastly").miss = true
      ∧ (parseCDNCacheStatus (RawHeaders.obj [("x-cache", "Hit from cloudfront")]) "cloudfront").hit = true
      ∧ (parseCDNCacheStatus (RawHeaders.obj [("x-cache", "Miss from cloudfront")]) "cloudfront").miss = true
      ∧ (parseCDNCacheStatus (RawHeaders.obj [("x-cache-status", "HIT")]) "local").hit = true
      ∧ (parseCDNCacheStatus (RawHeaders.obj [("x-cache-status", "MISS")]) "local").miss = true)
    ∧ (∀ cdn ∈ cdnKeys, ∀ entries : List (String × String),
        (∀ kv ∈ entries, lowerStr kv.1 ≠ signalHeader cdn) →
        (parseCDNCacheStatus (RawHeaders.obj entries) cdn).status = "MISSING_HEADER")
    ∧ (∀ cdn : String, cdn ∉ cdnKeys → ∀ entries : List (String × String),
        (parseCDNCacheStatus (RawHeaders.obj entries) cdn).status = "UNSUPPORTED_CDN") := by
  refine ⟨by decide, ?_, ?_⟩
  · intro cdn hcdn entries hne
    have hnone := getHeader_normalize_none entries (signalHeader cdn) hne
    show (parseObj (normalizeEntries entries) cdn).status = "MISSING_HEADER"
    have hmem : cdn = "cloudflare" ∨ cdn = "fastly" ∨ cdn = "cloudfront" ∨ cdn = "local" := by
      simpa [cdnKeys] using hcdn
    rcases hmem with rfl | rfl | rfl | rfl <;>
      simp_all [parseObj, signalHeader, statusOr]
  · intro cdn hcdn entries
    have hne4 : ¬cdn = "cloudflare" ∧ ¬cdn = "fastly" ∧ ¬cdn = "cloudfront" ∧ ¬cdn = "local" := by
      simp only [cdnKeys, List.mem_cons, List.not_mem_nil, or_false] at hcdn
      tauto
    obtain ⟨h1, h2, h3, h4⟩ := hne4
    show (parseObj (normalizeEntries entries) cdn).status = "UNSUPPORTED_CDN"
    simp [parseObj, h1, h2, h3, h4]

/-- Witness for `interpreter_round_trip`: empty map for cloudflare is
`MISSING_HEADER`; an unknown vendor is `UNSUPPORTED_CDN`. -/
theorem interpreter_round_trip_witness :
    (parseCDNCacheStatus (RawHeaders.obj ([] : List (String × String))) "cloudflare").status
      = "MISSING_HEADER"
    ∧ (parseCDNCacheStatus (RawHeaders.obj [("x-cache", "HIT")]) "akamai").status
      = "UNSUPPORTED_CDN" :=
  ⟨interpreter_round_trip.2.1 "cloudflare" (by decide) [] (by simp),
   interpreter_round_trip.2.2 "akamai" (by decide) [("x-cache", "HIT")]⟩

/-- Claim C6: a `success = true` classification under the proper strategy
is surfaced, not suppressed - the test-layer assertion fails exactly for a
proper-strategy successful trial, and `checkUnexpectedSuccesses` emits a
`MEDIUM` anomaly iff some trial of the trailing hour has strategy `proper`
and `success = true`, emitting nothing otherwise. -/
theorem proper_success_flagged (strategy : String) (success : Bool)
    (rows : List ExperimentRow) (now : Int) :
    (properAssertionPasses strategy success = false ↔ strategy = "proper" ∧ success = true)
    ∧ ((∃ a, checkUnexpectedSuccesses rows now = some a ∧ a.severity = "MEDIUM")
        ↔ ∃ r ∈ rows, r.timestamp > now - hourMs
            ∧ r.origin_header_strategy = "proper" ∧ r.success = true)
    ∧ (∀ a, checkUnexpectedSuccesses rows now = some a → a.severity = "MEDIUM") := by
  have key : unexpectedSuccessCount rows now > 0
      ↔ ∃ r ∈ rows, r.timestamp > now - hourMs
          ∧ r.origin_header_strategy = "proper" ∧ r.success = true := by
    unfold unexpectedSuccessCount
    rw [gt_iff_lt, List.length_pos]
    constructor
    · intro hne
      obtain ⟨r, hr⟩ := List.exists_mem_of_ne_nil _ hne
      rw [List.mem_filter] at hr
      have hprops := hr.2
      simp only [Bool.and_eq_true, decide_eq_true_eq] at hprops
      exact ⟨r, hr.1, hprops.1.1, hprops.1.2, hprops.2⟩
    · rintro ⟨r, hrmem, ht, hs, hsucc⟩
      intro hnil
      rw [List.filter_eq_nil_iff] at hnil
      exact hnil r hrmem (by simp [ht, hs, hsucc])
  refine ⟨?_, ?_, ?_⟩
  · unfold properAssertionPasses
    by_cases hs : strategy = "proper" <;> simp [hs]
  · unfold checkUnexpectedSuccesses
    split_ifs with hcnt
    · constructor
      · intro _
        exact key.mp hcnt
      · intro _
        exact ⟨_, rfl, rfl⟩
    · constructor
      · rintro ⟨a, ha, -⟩
        exact absurd ha (by simp)
      · intro hex
        exact absurd (key.mpr hex) hcnt
  · intro a ha
    unfold checkUnexpectedSuccesses at ha
    split_ifs at ha
    simp only [Option.some.injEq] at ha
    rw [← ha]

/-- Witness for `proper_success_flagged`: one fresh successful
proper-strategy trial produces the `MEDIUM` anomaly. -/
theorem proper_success_flagged_witness :
    ∃ a, checkUnexpectedSuccesses [⟨1000, "proper", true⟩] 1000 = some a
      ∧ a.severity = "MEDIUM" :=
  (proper_success_flagged "proper" true [⟨1000, "proper", true⟩] 1000).2.1.mpr
    ⟨⟨1000, "proper", true⟩, by simp, by decide, rfl, rfl⟩

/-- Claim C7, counterexample: a single in-window contact with a
non-allowlisted host is NOT reported (the query keeps only hosts with
`COUNT(*) > 1`), contradicting "a single such contact suffices". -/
theorem external_single_contact_ignored :
    ((999 : Int) > 1000 - fiveMinMs ∧ "evil.example" ∉ allowedHosts)
    ∧ checkExternalDomains [⟨999, some "evil.example"⟩] 1000 = none := by decide

/-- Claim C7 (amended): the external-domain check reports an anomaly iff
some host outside the fixed allowlist appears MORE THAN ONCE among the
trailing window's contacts (a single contact is not reported), and every
anomaly it reports has severity `CRITICAL`. -/
theorem external_domain_check_rule (logs : List OriginLogRow) (now : Int) :
    ((∃ a, checkExternalDomains logs now = some a)
      ↔ ∃ h' : String, h' ∉ allowedHosts
          ∧ 1 < ((logs.filter (fun l => decide (l.timestamp > now - fiveMinMs))).filter
              (fun l => decide (l.host = some h'))).length)
    ∧ ∀ a, checkExternalDomains logs now = some a → a.severity = "CRITICAL" := by
  have hcount : ∀ h' : String, h' ∉ allowedHosts →
      ((externalWindow logs now).filter (fun l => decide (l.host = some h')))
        = ((logs.filter (fun l => decide (l.timestamp > now - fiveMinMs))).filter
            (fun l => decide (l.host = some h'))) := by
    intro h' hna
    unfold externalWindow
    rw [List.filter_filter, List.filter_filter]
    apply List.filter_congr
    intro x _
    by_cases hx : x.host = some h'
    · simp [hx, isExternalHost, hna]
    · simp [hx]
  have hoffend : ∀ h' : String, h' ∈ externalOffenders logs now ↔
      (h' ∉ allowedHosts
        ∧ 1 < ((logs.filter (fun l => decide (l.timestamp > now - fiveMinMs))).filter
            (fun l => decide (l.host = some h'))).length) := by
    intro h'
    unfold externalOffenders
    rw [List.mem_filter, List.mem_dedup, List.mem_filterMap]
    constructor
    · rintro ⟨⟨l, hlmem, hlhost⟩, hcnt⟩
      have hna : h' ∉ allowedHosts := by
        unfold externalWindow at hlmem
        rw [List.mem_filter] at hlmem
        have hext := hlmem.2
        rw [hlhost] at hext
        simp only [Bool.and_eq_true, isExternalHost, Bool.not_eq_true',
          decide_eq_false_iff_not] at hext
        exact hext.2
      refine ⟨hna, ?_⟩
      rw [decide_eq_true_eq] at hcnt
      rw [← hcount h' hna]
      exact hcnt
    · rintro ⟨hna, hcnt⟩
      have hcnt' : 1 < ((externalWindow logs now).filter
          (fun l => decide (l.host = some h'))).length := by
        rw [hcount h' hna]
        exact hcnt
      have hpos : ((externalWindow logs now).filter
          (fun l => decide (l.host = some h'))) ≠ [] := by
        rw [← List.length_pos]
        omega
      obtain ⟨l, hl⟩ := List.exists_mem_of_ne_nil _ hpos
      rw [List.mem_filter] at hl
      refine ⟨⟨l, hl.1, by simpa using hl.2⟩, by simpa using hcnt'⟩
  constructor
  · unfold checkExternalDomains
    split_ifs with hemp
    · constructor
      · rintro ⟨a, ha⟩
        exact absurd ha (by simp)
      · rintro ⟨h', hh'⟩
        exfalso
        have hmem : h' ∈ externalOffenders logs now := (hoffend h').mpr hh'
        rw [List.isEmpty_iff] at hemp
        rw [hemp] at hmem
        exact List.not_mem_nil _ hmem
    · constructor
      · intro _
        have hne : externalOffenders logs now ≠ [] := by
          intro hn
          exact hemp (by rw [hn]; rfl)
        obtain ⟨h', hh'⟩ := List.exists_mem_of_ne_nil _ hne
        exact ⟨h', (hoffend h').mp hh'⟩
      · intro _
        exact ⟨_, rfl⟩
  · intro a ha
    unfold checkExternalDomains at ha
    split_ifs at ha
    simp only [Option.some.injEq] at ha
    rw [← ha]

/-- Witness for `external_domain_check_rule`: two in-window contacts with
the same non-allowlisted host produce the anomaly. -/
theorem external_domain_check_rule_witness :
    ∃ a, checkExternalDomains
        [⟨999, some "evil.example"⟩, ⟨998, some "evil.example"⟩] 1000 = some a :=
  (external_domain_check_rule
      [⟨999, some "evil.example"⟩, ⟨998, some "evil.example"⟩] 1000).1.mpr
    ⟨"evil.example", by decide, by decide⟩

end SWWCD

namespace SWWCD

/-- Two string concatenations differ when their constant heads differ at
character position 8. -/
theorem msg_ne_aux (p q x y : String) (hp : 8 < p.data.length) (hq : 8 < q.data.length)
    (hne : p.data[8]? ≠ q.data[8]?) : p ++ x ≠ q ++ y := by
  intro he
  apply hne
  have hd := congrArg String.data he
  rw [String.data_append, String.data_append] at hd
  have h8 := congrArg (fun l => l[8]?) hd
  simpa [List.getElem?_append_left hp, List.getElem?_append_left hq] using h8

/-- The four validation error messages are pairwise distinct across
dimensions, whatever the offending values. -/
theorem cdnMsg_ne_browserMsg (c b : String) : invalidCDNMsg c ≠ invalidBrowserMsg b := by
  unfold invalidCDNMsg invalidBrowserMsg
  exact msg_ne_aux _ _ _ _ (by decide) (by decide) (by decide)

theorem cdnMsg_ne_attackMsg (c a : String) : invalidCDNMsg c ≠ invalidAttackMsg a := by
  unfold invalidCDNMsg invalidAttackMsg
  exact msg_ne_aux _ _ _ _ (by decide) (by decide) (by decide)

theorem cdnMsg_ne_strategyMsg (c s : String) : invalidCDNMsg c ≠ invalidStrategyMsg s := by
  unfold invalidCDNMsg invalidStrategyMsg
  exact msg_ne_aux _ _ _ _ (by decide) (by decide) (by decide)

theorem browserMsg_ne_attackMsg (b a : String) : invalidBrowserMsg b ≠ invalidAttackMsg a := by
  unfold invalidBrowserMsg invalidAttackMsg
  exact msg_ne_aux _ _ _ _ (by decide) (by decide) (by decide)

theorem browserMsg_ne_strategyMsg (b s : String) : invalidBrowserMsg b ≠ invalidStrategyMsg s := by
  unfold invalidBrowserMsg invalidStrategyMsg
  exact msg_ne_aux _ _ _ _ (by decide) (by decide) (by decide)

theorem attackMsg_ne_strategyMsg (a s : String) : invalidAttackMsg a ≠ invalidStrategyMsg s := by
  unfold invalidAttackMsg invalidStrategyMsg
  exact msg_ne_aux _ _ _ _ (by decide) (by decide) (by decide)

theorem browserMsg_ne_cdnMsg (b c : String) : invalidBrowserMsg b ≠ invalidCDNMsg c :=
  (cdnMsg_ne_browserMsg c b).symm

theorem attackMsg_ne_cdnMsg (a c : String) : invalidAttackMsg a ≠ invalidCDNMsg c :=
  (cdnMsg_ne_attackMsg c a).symm

theorem attackMsg_ne_browserMsg (a b : String) : invalidAttackMsg a ≠ invalidBrowserMsg b :=
  (browserMsg_ne_attackMsg b a).symm

theorem strategyMsg_ne_cdnMsg (s c : String) : invalidStrategyMsg s ≠ invalidCDNMsg c :=
  (cdnMsg_ne_strategyMsg c s).symm

theorem strategyMsg_ne_browserMsg (s b : String) : invalidStrategyMsg s ≠ invalidBrowserMsg b :=
  (browserMsg_ne_strategyMsg b s).symm

theorem strategyMsg_ne_attackMsg (s a : String) : invalidStrategyMsg s ≠ invalidAttackMsg a :=
  (attackMsg_ne_strategyMsg a s).symm

/-- Claim C8, counterexample: the tuple whose CDN dimension is `toString`
lies outside the fixed CDN enumeration, yet validation raises no error and
returns `true` - `TEST_CONFIG.cdns['toString']` resolves to the truthy
inherited `Object.prototype.toString`, so the claimed iff is false. -/
theorem validateTestParams_proto_counterexample :
    "toString" ∉ cdnKeys
    ∧ validateTestParams "toString" "chromium" "t1-path-sculpting" "proper" = Except.ok true :=
  ⟨by decide, rfl⟩

/-- Claim C8 (amended): validation succeeds (returning `true`) exactly when
all four dimension checks pass, where the browser and strategy checks are
exact membership in their enumerations but the CDN and attack checks are
JS truthy property lookups that also accept the `Object.prototype`-inherited
names (`toString`, `constructor`, `__proto__`, ...); otherwise it raises a
validation error whose message list names exactly the dimensions that
failed their checks. The embedded function is pure - validation performs
only these checks and no network or storage activity. -/
theorem validateTestParams_spec (cdn browser attack strategy : String) :
    (validateTestParams cdn browser attack strategy = Except.ok true
      ↔ cdnLookupTruthy cdn = true ∧ browserKeys.contains browser = true
        ∧ attackLookupTruthy attack = true ∧ originStrategies.contains strategy = true)
    ∧ ∀ errs, validateTestParams cdn browser attack strategy = Except.error errs →
        ((cdnLookupTruthy cdn = false ↔ invalidCDNMsg cdn ∈ errs)
          ∧ (browserKeys.contains browser = false ↔ invalidBrowserMsg browser ∈ errs)
          ∧ (attackLookupTruthy attack = false ↔ invalidAttackMsg attack ∈ errs)
          ∧ (originStrategies.contains strategy = false ↔ invalidStrategyMsg strategy ∈ errs)) := by
  unfold validateTestParams
  by_cases h1 : cdnLookupTruthy cdn = true <;>
    by_cases h2 : browserKeys.contains browser = true <;>
      by_cases h3 : attackLookupTruthy attack = true <;>
        by_cases h4 : originStrategies.contains strategy = true <;>
          simp_all [cdnMsg_ne_browserMsg, cdnMsg_ne_attackMsg, cdnMsg_ne_strategyMsg,
            browserMsg_ne_cdnMsg, browserMsg_ne_attackMsg, browserMsg_ne_strategyMsg,
            attackMsg_ne_cdnMsg, attackMsg_ne_browserMsg, attackMsg_ne_strategyMsg,
            strategyMsg_ne_cdnMsg, strategyMsg_ne_browserMsg, strategyMsg_ne_attackMsg]

/-- Witness for `validateTestParams_spec`: a fully valid tuple validates. -/
theorem validateTestParams_spec_witness :
    validateTestParams "cloudflare" "chromium" "t1-path-sculpting" "proper" = Except.ok true :=
  (validateTestParams_spec "cloudflare" "chromium" "t1-path-sculpting" "proper").1.mpr
    ⟨rfl, rfl, rfl, rfl⟩

end SWWCD
